import Mathlib

/-!
Shallow embedding of the webhook dispatch and scheduling subsystem of
palantir/go-githubapp.

Two source units are modelled:

* `githubapp/dispatcher.go` — the HTTP event dispatcher (`NewEventDispatcher`,
  `eventDispatcher.ServeHTTP`, `DefaultErrorHandler`).  Modelled in namespace
  `Dispatcher`.
* the scheduler source file (`Dispatch`, `Dispatch.Execute`, the shared
  `scheduler` struct with `safeExecute`, `DefaultScheduler`, `AsyncScheduler`,
  `QueueAsyncScheduler`, `queueScheduler.Schedule`, and the scheduler
  options).  Modelled in namespace `Sched`.

Side effects are made explicit: HTTP responses become a result record,
handler and callback invocations become event lists, the bounded channel
becomes a list with a capacity, panics become an explicit outcome
constructor, and Go's `panic` in a constructor becomes `Except.error`.
-/

namespace GoGithubApp

/-- Raw webhook payload bytes. -/
abbrev Payload := List Nat

/-- Go `error` values that occur in the modelled code: the scheduler's
`ErrCapacityExceeded`, ordinary error values (`errors.New`), and errors
produced by `fmt.Errorf("%v", r)` when converting a non-error panic value. -/
inductive GoError where
  | capacityExceeded
  | errorMsg (msg : String)
  | formatted (msg : String)
deriving DecidableEq

namespace Sched

/-- Model of `context.Context` as used by the scheduler code: it carries a
logger association, whether `InitializeResponder` has run on it, and whether
it is still tied to the originating HTTP request (`context.Background()` is
not). -/
structure Context where
  logger : Nat
  hasResponder : Bool
  requestScoped : Bool
deriving DecidableEq

/-- `context.Background()`. -/
def backgroundCtx : Context := { logger := 0, hasResponder := false, requestScoped := false }

/-- `InitializeResponder` stores a fresh responder cell in the context. -/
def InitializeResponder (ctx : Context) : Context := { ctx with hasResponder := true }

/-- `DefaultContextDeriver`: a new context rooted in `context.Background()`,
with a responder initialized, carrying the logger of the input context. -/
def DefaultContextDeriver (ctx : Context) : Context :=
  let newCtx := backgroundCtx
  let newCtx := InitializeResponder newCtx
  { newCtx with logger := ctx.logger }

/-- A Go panic value: either an `error`, or some other value rendered by
`%v`. -/
inductive PanicValue where
  | errorValue (e : GoError)
  | otherValue (v : String)
deriving DecidableEq

/-- Result of invoking a handler: a normal return of `nil`, a normal return
of a non-nil error, or a panic escaping the call. -/
inductive HandlerOutcome where
  | ok
  | err (e : GoError)
  | panicked (v : PanicValue)
deriving DecidableEq

/-- The scheduler-side `EventHandler` interface:
`Handles() []string` and `Handle(ctx, eventType, deliveryID, payload) error`. -/
structure EventHandler where
  handles : List String
  handle : Context → String → String → Payload → HandlerOutcome

/-- `Dispatch` is a webhook payload and the handler that handles it. -/
structure Dispatch where
  Handler : EventHandler
  Ctx : Context
  EventType : String
  DeliveryID : String
  Payload : Payload

/-- `Dispatch.Execute` calls the Dispatch's handler with the stored
arguments; its error return is the handler's error, and a handler panic
escapes `Execute` itself. -/
def Dispatch.Execute (d : Dispatch) : HandlerOutcome :=
  d.Handler.handle d.Ctx d.EventType d.DeliveryID d.Payload

/-- `AsyncErrorCallback` values are opaque user functions; only their
identity matters to the model.  `defaultCallback` is
`DefaultAsyncErrorCallback` (which logs the error). -/
inductive AsyncErrorCallback where
  | defaultCallback
  | custom (id : Nat)
deriving DecidableEq

/-- `ContextDeriver` creates a new independent context from a request's
context. -/
abbrev ContextDeriver := Context → Context

/-- Shared core state of the async schedulers (Go struct `scheduler`): the
error callback and context deriver, either of which may be nil. -/
structure scheduler where
  onError : Option AsyncErrorCallback
  deriver : Option ContextDeriver

/-- A `SchedulerOption` configures properties of a scheduler.
`withSchedulingMetrics` registers gauges and changes no scheduler field. -/
inductive SchedulerOption where
  | withAsyncErrorCallback (onError : Option AsyncErrorCallback)
  | withContextDeriver (deriver : Option ContextDeriver)
  | withSchedulingMetrics

/-- Application of one option, as in the source: `WithAsyncErrorCallback`
and `WithContextDeriver` assign the field only when the argument is
non-nil. -/
def applyOption (s : scheduler) : SchedulerOption → scheduler
  | .withAsyncErrorCallback (some onError) => { s with onError := some onError }
  | .withAsyncErrorCallback none => s
  | .withContextDeriver (some deriver) => { s with deriver := some deriver }
  | .withContextDeriver none => s
  | .withSchedulingMetrics => s

/-- Observable events of an execution: active-worker counter increments and
decrements, handler invocations (with the context and arguments passed),
and error-callback invocations (with the callback identity and the
arguments passed: a context and an error — the full argument list of
`AsyncErrorCallback`). -/
inductive Event where
  | workerIncr
  | handlerRun (ctx : Context) (eventType : String) (deliveryID : String) (payload : Payload)
  | onErrorCall (cb : AsyncErrorCallback) (ctx : Context) (e : GoError)
  | workerDecr
deriving DecidableEq

/-- The panic-to-error conversion in `safeExecute`'s deferred recover: the
panic value is used directly when it is an error, otherwise it is formatted
with `fmt.Errorf("%v", r)`. -/
def recoverErr : PanicValue → GoError
  | .errorValue rerr => rerr
  | .otherValue v => .formatted v

/-- The context-derivation step of `safeExecute`:
`if s.deriver != nil { d.Ctx = s.deriver(d.Ctx) }`. -/
def scheduler.deriveCtx (s : scheduler) (ctx : Context) : Context :=
  match s.deriver with
  | some deriver => deriver ctx
  | none => ctx

/-- The error observed by `safeExecute`'s deferred function: the error
assigned by `err = d.Execute()`, or, when the execution panicked, the
recovered and converted panic value. -/
def recoveredError (outcome : HandlerOutcome) : Option GoError :=
  match outcome with
  | .ok => none
  | .err e => some e
  | .panicked v => some (recoverErr v)

/-- The error-callback invocation performed by the deferred function:
`if err != nil && s.onError != nil { s.onError(d.Ctx, err) }` — note the
arguments are the (possibly re-assigned) context and the error. -/
def scheduler.errEvents (s : scheduler) (ctx : Context) (err : Option GoError) : List Event :=
  match err, s.onError with
  | some e, some cb => [.onErrorCall cb ctx e]
  | _, _ => []

/-- `scheduler.safeExecute`, as an event trace.  Order as in the source:
increment the worker count, derive the context when a deriver is set
(mutating the local copy of the dispatch), execute, then — in the deferred
function — recover a panic into an error, call `onError` when an error
resulted and a callback is set, and decrement the worker count. -/
def scheduler.safeExecute (s : scheduler) (d : Dispatch) : List Event :=
  let ctx := s.deriveCtx d.Ctx
  let outcome := Dispatch.Execute { d with Ctx := ctx }
  let err := recoveredError outcome
  [.workerIncr, .handlerRun ctx d.EventType d.DeliveryID d.Payload]
    ++ scheduler.errEvents s ctx err ++ [.workerDecr]

/-- `defaultScheduler.Schedule` executes the dispatch inline:
`return d.Execute()`. -/
def defaultScheduler.Schedule (d : Dispatch) : HandlerOutcome :=
  d.Execute

/-- `AsyncScheduler` constructs the shared scheduler state with
`DefaultContextDeriver` and `DefaultAsyncErrorCallback` installed, then
applies the options in order. -/
def AsyncScheduler (opts : List SchedulerOption) : scheduler :=
  opts.foldl applyOption
    { deriver := some DefaultContextDeriver, onError := some .defaultCallback }

/-- State of a `queueScheduler`: the shared scheduler state, the channel
capacity (`queueSize`), the buffered channel contents, and the worker
count. -/
structure queueScheduler where
  sched : scheduler
  capacity : Nat
  queue : List Dispatch
  workers : Nat

/-- `QueueAsyncScheduler`: panics (modelled as `Except.error`) for a
negative queue size or a non-positive worker count; otherwise builds the
scheduler with defaults installed, applies the options, and starts
`workers` workers over an empty queue. -/
def QueueAsyncScheduler (queueSize : Int) (workers : Int)
    (opts : List SchedulerOption) : Except String queueScheduler :=
  if queueSize < 0 then
    .error "NewQueueAsyncScheduler: queue size must be non-negative"
  else if workers < 1 then
    .error "NewQueueAsyncScheduler: worker count must be positive"
  else
    .ok
      { sched := opts.foldl applyOption
          { deriver := some DefaultContextDeriver, onError := some .defaultCallback }
        capacity := queueSize.toNat
        queue := []
        workers := workers.toNat }

/-- `queueScheduler.Schedule`: the non-blocking `select` send with a
`default` branch — enqueue when the buffered channel has room, otherwise
return `ErrCapacityExceeded` and leave the state unchanged. -/
def queueScheduler.Schedule (s : queueScheduler) (d : Dispatch) :
    Option GoError × queueScheduler :=
  if s.queue.length < s.capacity then
    (none, { s with queue := s.queue ++ [d] })
  else
    (some .capacityExceeded, s)

/-- Sequentialized trace of executing a list of dispatches through
`safeExecute`, as the unbounded-async scheduler's goroutines and the queue
scheduler's workers both do. -/
def runAll (s : scheduler) (ds : List Dispatch) : List Event :=
  match ds with
  | [] => []
  | d :: rest => scheduler.safeExecute s d ++ runAll s rest

/-- The trace of the queue scheduler's workers draining the queue. -/
def queueScheduler.drain (q : queueScheduler) : List Event :=
  runAll q.sched q.queue

/-- Effect of one event on the active-worker counter. -/
def applyEvent (c : Int) : Event → Int
  | .workerIncr => c + 1
  | .workerDecr => c - 1
  | _ => c

/-- Active-worker counter after a trace, starting from `c`. -/
def runCounter (c : Int) (events : List Event) : Int :=
  events.foldl applyEvent c

/-- Number of worker-counter increments in a trace. -/
def incrCount (events : List Event) : Nat :=
  events.countP fun e => match e with | .workerIncr => true | _ => false

/-- Number of worker-counter decrements in a trace. -/
def decrCount (events : List Event) : Nat :=
  events.countP fun e => match e with | .workerDecr => true | _ => false

/-- Number of handler invocations in a trace. -/
def handlerRunCount (events : List Event) : Nat :=
  events.countP fun e => match e with | .handlerRun _ _ _ _ => true | _ => false

/-- The error-callback invocations of a trace, in order. -/
def onErrorEvents (events : List Event) : List Event :=
  events.filter fun e => match e with | .onErrorCall _ _ _ => true | _ => false

end Sched

namespace Dispatcher

/-- What a dispatcher-side handler's `Handle` produces: an HTTP status (0
meaning "use the default"), an optional response body, and an error. -/
structure HandleResult where
  status : Nat
  respbody : String
  err : Option GoError
deriving DecidableEq

/-- The dispatcher-side `EventHandler` interface of `dispatcher.go`:
`Handles() []string` and
`Handle(ctx, eventType, deliveryID, payload, w) (status, respbody, err)`. -/
structure EventHandler where
  handles : List String
  handle : String → String → Payload → HandleResult

/-- An `ErrorHandler` writes a response for an error; modelled by the
status and body it writes. -/
abbrev ErrorHandler := GoError → Nat × String

/-- `DefaultErrorHandler` logs the error and responds 500 with
`http.StatusText(http.StatusInternalServerError)`. -/
def DefaultErrorHandler : ErrorHandler := fun _ => (500, "Internal Server Error\n")

/-- `eventDispatcher`: the handler map (as an index into the construction
list, so handler identity is observable), plus the error handler.  The
original handler list is kept so indices resolve to handlers. -/
structure EventDispatcher where
  handlers : List EventHandler
  handlerMap : String → Option Nat
  onError : ErrorHandler

/-- The inner loop of `NewEventDispatcher`: register every event of
`events` to handler index `i`, overwriting existing entries. -/
def insertEvents (m : String → Option Nat) (i : Nat) (events : List String) :
    String → Option Nat :=
  events.foldl (fun m event => fun key => if key = event then some i else m key) m

/-- One iteration of the registration loop: register all events of the
handler at index `i` (no-op for an out-of-range index). -/
def registerStep (handlers : List EventHandler) (i : Nat) (m : String → Option Nat) :
    String → Option Nat :=
  match handlers[i]? with
  | some h => insertEvents m i h.handles
  | none => m

/-- Map construction in `NewEventDispatcher`: iterate the indices in
reverse so the first entries in the slice have priority. -/
def buildHandlerMap (handlers : List EventHandler) : String → Option Nat :=
  (List.range handlers.length).reverse.foldl
    (fun m i => registerStep handlers i m)
    (fun _ => none)

/-- `NewEventDispatcher`: build the handler map and install the default
error handler when `onError` is nil. -/
def NewEventDispatcher (handlers : List EventHandler) (onError : Option ErrorHandler) :
    EventDispatcher :=
  { handlers := handlers
    handlerMap := buildHandlerMap handlers
    onError := onError.getD DefaultErrorHandler }

/-- An incoming request: the `X-GitHub-Event` header (empty string when the
header is absent, as `Header.Get` returns) and the `X-GitHub-Delivery`
header. -/
structure HookRequest where
  eventType : String
  deliveryID : String
deriving DecidableEq

/-- A recorded invocation of a handler's `Handle` method: the index of the
handler in the construction list and the arguments passed. -/
structure HandlerCall where
  handlerIdx : Nat
  eventType : String
  deliveryID : String
  payload : Payload
deriving DecidableEq

/-- The observable outcome of `ServeHTTP`: the response status and body,
the handler invocations, and the error-handler invocations. -/
structure ServeResult where
  status : Nat
  body : String
  handlerCalls : List HandlerCall
  onErrorCalls : List GoError
deriving DecidableEq

/-- `eventDispatcher.ServeHTTP`.  `validatePayload` stands for
`github.ValidatePayload(r, []byte(d.secret))`: `none` models a validation
error, `some payloadBytes` a verified payload.  Control flow as in the
source: empty event type → 202; invalid payload → 400 with the fixed body
and no error-handler call; then the switch with the registered-handler case
first, the ping case second, and 202 as the default. -/
def ServeHTTP (d : EventDispatcher) (validatePayload : HookRequest → Option Payload)
    (r : HookRequest) : ServeResult :=
  if r.eventType = "" then
    { status := 202, body := "", handlerCalls := [], onErrorCalls := [] }
  else
    match validatePayload r with
    | none =>
      { status := 400, body := "invalid webhook or bad signature\n"
        handlerCalls := [], onErrorCalls := [] }
    | some payloadBytes =>
      match d.handlerMap r.eventType with
      | some i =>
        match d.handlers[i]? with
        | some handler =>
          let call : HandlerCall :=
            { handlerIdx := i, eventType := r.eventType
              deliveryID := r.deliveryID, payload := payloadBytes }
          let res := handler.handle r.eventType r.deliveryID payloadBytes
          match res.err with
          | some e =>
            let written := d.onError e
            { status := written.1, body := written.2
              handlerCalls := [call], onErrorCalls := [e] }
          | none =>
            { status := if res.status = 0 then 200 else res.status
              body := res.respbody, handlerCalls := [call], onErrorCalls := [] }
        | none =>
          { status := 202, body := "", handlerCalls := [], onErrorCalls := [] }
      | none =>
        if r.eventType = "ping" then
          { status := 200, body := "", handlerCalls := [], onErrorCalls := [] }
        else
          { status := 202, body := "", handlerCalls := [], onErrorCalls := [] }

/-- Specification-side lookup: the index of the first handler in the list
that declares `key` among its handled event types. -/
def firstHandlerFor (handlers : List EventHandler) (key : String) : Option Nat :=
  match handlers with
  | [] => none
  | h :: rest =>
    if key ∈ h.handles then some 0
    else (firstHandlerFor rest key).map (· + 1)

/-! Concrete dispatcher-side inputs used by witnesses and counterexamples. -/

/-- A handler that declares the ping event type and returns defaults. -/
def pingEH : EventHandler := { handles := ["ping"], handle := fun _ _ _ => ⟨0, "", none⟩ }

/-- A handler for pull_request events returning defaults. -/
def prEH : EventHandler := { handles := ["pull_request"], handle := fun _ _ _ => ⟨0, "", none⟩ }

/-- A second, distinguishable handler for pull_request events. -/
def prEH2 : EventHandler :=
  { handles := ["pull_request"], handle := fun _ _ _ => ⟨201, "second", none⟩ }

/-- A payload validation that accepts every request (a correctly signed
delivery). -/
def validateOK : HookRequest → Option Payload := fun _ => some []

/-- A payload validation that rejects every request (wrong secret or
mutated payload). -/
def validateFail : HookRequest → Option Payload := fun _ => none

end Dispatcher

namespace Sched

/-! Concrete scheduler-side inputs used by witnesses and counterexamples. -/

/-- A request-scoped context with a logger attached. -/
def ctxReq : Context := { logger := 7, hasResponder := false, requestScoped := true }

/-- A scheduler-side handler that succeeds. -/
def okEH : EventHandler := { handles := ["ping"], handle := fun _ _ _ _ => .ok }

/-- A scheduler-side handler that returns an error. -/
def errEH : EventHandler :=
  { handles := ["ping"], handle := fun _ _ _ _ => .err (.errorMsg "handler error") }

/-- A dispatch whose handler succeeds. -/
def dOk : Dispatch :=
  { Handler := okEH, Ctx := ctxReq, EventType := "ping", DeliveryID := "d0", Payload := [] }

/-- A dispatch whose handler errors, delivery id d1. -/
def dErr1 : Dispatch :=
  { Handler := errEH, Ctx := ctxReq, EventType := "ping", DeliveryID := "d1", Payload := [] }

/-- A dispatch identical to `dErr1` except for its delivery id. -/
def dErr2 : Dispatch :=
  { Handler := errEH, Ctx := ctxReq, EventType := "ping", DeliveryID := "d2", Payload := [] }

/-- A capacity-1 queue scheduler with an empty queue. -/
def emptyQS : queueScheduler :=
  { sched := { onError := some .defaultCallback, deriver := some DefaultContextDeriver }
    capacity := 1, queue := [], workers := 1 }

/-- A capacity-1 queue scheduler whose queue is full. -/
def fullQS : queueScheduler :=
  { sched := { onError := some .defaultCallback, deriver := some DefaultContextDeriver }
    capacity := 1, queue := [dOk], workers := 1 }

/-- Whether a `QueueAsyncScheduler` construction ended in the fatal panic. -/
def constructionPanics (x : Except String queueScheduler) : Bool :=
  match x with
  | .error _ => true
  | .ok _ => false

/-- The queue scheduler produced by `QueueAsyncScheduler 0 1 []`. -/
def qsDefault : queueScheduler :=
  { sched := { onError := some .defaultCallback, deriver := some DefaultContextDeriver }
    capacity := 0, queue := [], workers := 1 }

end Sched

namespace Dispatcher

/-! Lemmas about the handler registry built by `NewEventDispatcher`. -/

theorem insertEvents_apply (events : List String) (m : String → Option Nat) (i : Nat)
    (key : String) :
    insertEvents m i events key = if key ∈ events then some i else m key := by
  induction events generalizing m with
  | nil => simp [insertEvents]
  | cons e es ih =>
    show insertEvents (fun key => if key = e then some i else m key) i es key = _
    rw [ih]
    by_cases h2 : key = e <;> by_cases h1 : key ∈ es <;>
      simp [List.mem_cons, h1, h2]

theorem firstHandlerFor_append_singleton (l : List EventHandler) (h : EventHandler)
    (key : String) :
    firstHandlerFor (l ++ [h]) key =
      match firstHandlerFor l key with
      | some j => some j
      | none => if key ∈ h.handles then some l.length else none := by
  induction l with
  | nil =>
    by_cases hc : key ∈ h.handles <;> simp [firstHandlerFor, hc]
  | cons h' l ih =>
    by_cases hc : key ∈ h'.handles
    · simp [firstHandlerFor, hc]
    · simp only [List.cons_append, firstHandlerFor, if_neg hc, List.append_eq]
      rw [ih]
      cases hfl : firstHandlerFor l key with
      | some j => simp
      | none =>
        by_cases hch : key ∈ h.handles <;> simp [hch, List.length_cons]

theorem buildFold_eq (handlers : List EventHandler) (n : Nat) (hn : n ≤ handlers.length)
    (m0 : String → Option Nat) (key : String) :
    (List.range n).foldr (fun i m => registerStep handlers i m) m0 key
      = match firstHandlerFor (handlers.take n) key with
        | some j => some j
        | none => m0 key := by
  induction n generalizing m0 with
  | zero => simp [firstHandlerFor]
  | succ n ih =>
    have hn' : n < handlers.length := hn
    have hgetN : handlers[n]? = some handlers[n] := List.getElem?_eq_getElem hn'
    rw [List.range_succ, List.foldr_append]
    simp only [List.foldr_cons, List.foldr_nil]
    rw [ih (le_of_lt hn')]
    have hstep : registerStep handlers n m0 = insertEvents m0 n handlers[n].handles := by
      unfold registerStep
      rw [hgetN]
    rw [hstep, List.take_succ, hgetN]
    simp only [Option.toList_some]
    rw [firstHandlerFor_append_singleton]
    have hlen : (handlers.take n).length = n := by
      simp [List.length_take]
      omega
    cases hfl : firstHandlerFor (handlers.take n) key with
    | some j => simp
    | none =>
      rw [insertEvents_apply, hlen]
      by_cases hch : key ∈ handlers[n].handles <;> simp [hch]

theorem handlerMap_eq_firstHandlerFor (handlers : List EventHandler) (key : String) :
    buildHandlerMap handlers key = firstHandlerFor handlers key := by
  have h2 := buildFold_eq handlers handlers.length le_rfl (fun _ => none) key
  rw [List.take_length] at h2
  have h1 : buildHandlerMap handlers key
      = (List.range handlers.length).foldr
          (fun i m => registerStep handlers i m) (fun _ => none) key :=
    congrFun (List.foldl_reverse (List.range handlers.length)
      (fun m i => registerStep handlers i m) (fun _ => none)) key
  rw [h1, h2]
  cases firstHandlerFor handlers key <;> rfl

theorem firstHandlerFor_mem (handlers : List EventHandler) (key : String) (k : Nat)
    (h : firstHandlerFor handlers key = some k) :
    ∃ hK, handlers[k]? = some hK ∧ key ∈ hK.handles := by
  induction handlers generalizing k with
  | nil => simp [firstHandlerFor] at h
  | cons hd tl ih =>
    by_cases hc : key ∈ hd.handles
    · simp only [firstHandlerFor, if_pos hc] at h
      obtain rfl : 0 = k := Option.some.inj h
      exact ⟨hd, List.getElem?_cons_zero, hc⟩
    · simp only [firstHandlerFor, if_neg hc] at h
      obtain ⟨j, hj, hk⟩ := Option.map_eq_some'.mp h
      obtain ⟨hK, hget, hmem⟩ := ih j hj
      subst hk
      exact ⟨hK, by simpa [List.getElem?_cons_succ] using hget, hmem⟩

theorem firstHandlerFor_le (handlers : List EventHandler) (key : String) (i : Nat)
    (hI : EventHandler) (hgi : handlers[i]? = some hI) (hmem : key ∈ hI.handles) :
    ∃ k, firstHandlerFor handlers key = some k ∧ k ≤ i := by
  induction handlers generalizing i with
  | nil => simp at hgi
  | cons hd tl ih =>
    by_cases hc : key ∈ hd.handles
    · exact ⟨0, by simp [firstHandlerFor, hc], Nat.zero_le i⟩
    · cases i with
      | zero =>
        rw [List.getElem?_cons_zero] at hgi
        obtain rfl : hd = hI := Option.some.inj hgi
        exact absurd hmem hc
      | succ i =>
        rw [List.getElem?_cons_succ] at hgi
        obtain ⟨k, hk, hki⟩ := ih i hgi
        exact ⟨k + 1, by simp [firstHandlerFor, hc, hk], Nat.succ_le_succ hki⟩

theorem firstHandlerFor_none (handlers : List EventHandler) (key : String)
    (h : ∀ hh ∈ handlers, key ∉ hh.handles) :
    firstHandlerFor handlers key = none := by
  induction handlers with
  | nil => rfl
  | cons hd tl ih =>
    have hc : key ∉ hd.handles := h hd (List.mem_cons_self hd tl)
    have htl : firstHandlerFor tl key = none :=
      ih fun hh hmem => h hh (List.mem_cons_of_mem hd hmem)
    simp [firstHandlerFor, hc, htl]

end Dispatcher

namespace Sched

/-! Lemmas about `safeExecute` traces and option application. -/

theorem errEvents_shape (s : scheduler) (ctx : Context) (err : Option GoError) :
    scheduler.errEvents s ctx err = []
      ∨ ∃ cb e, scheduler.errEvents s ctx err = [.onErrorCall cb ctx e] := by
  cases err with
  | none => exact .inl (by cases s.onError <;> rfl)
  | some e =>
    cases hO : s.onError with
    | none => exact .inl (by simp [scheduler.errEvents, hO])
    | some cb => exact .inr ⟨cb, e, by simp [scheduler.errEvents, hO]⟩

theorem safeExecute_eq (s : scheduler) (d : Dispatch) :
    scheduler.safeExecute s d
      = [.workerIncr,
         .handlerRun (s.deriveCtx d.Ctx) d.EventType d.DeliveryID d.Payload]
        ++ scheduler.errEvents s (s.deriveCtx d.Ctx)
            (recoveredError (Dispatch.Execute { d with Ctx := s.deriveCtx d.Ctx }))
        ++ [.workerDecr] := rfl

theorem runCounter_append (c : Int) (l1 l2 : List Event) :
    runCounter c (l1 ++ l2) = runCounter (runCounter c l1) l2 :=
  List.foldl_append applyEvent c l1 l2

theorem runCounter_safeExecute (s : scheduler) (d : Dispatch) (c : Int) :
    runCounter c (scheduler.safeExecute s d) = c := by
  rw [safeExecute_eq]
  rcases errEvents_shape s (s.deriveCtx d.Ctx)
      (recoveredError (Dispatch.Execute { d with Ctx := s.deriveCtx d.Ctx }))
    with hE | ⟨cb, e, hE⟩ <;>
  · rw [hE]
    simp [runCounter, applyEvent]

theorem incrCount_safeExecute (s : scheduler) (d : Dispatch) :
    incrCount (scheduler.safeExecute s d) = 1 := by
  rw [safeExecute_eq]
  rcases errEvents_shape s (s.deriveCtx d.Ctx)
      (recoveredError (Dispatch.Execute { d with Ctx := s.deriveCtx d.Ctx }))
    with hE | ⟨cb, e, hE⟩ <;>
  · rw [hE]
    simp [incrCount, List.countP_append, List.countP_cons]

theorem decrCount_safeExecute (s : scheduler) (d : Dispatch) :
    decrCount (scheduler.safeExecute s d) = 1 := by
  rw [safeExecute_eq]
  rcases errEvents_shape s (s.deriveCtx d.Ctx)
      (recoveredError (Dispatch.Execute { d with Ctx := s.deriveCtx d.Ctx }))
    with hE | ⟨cb, e, hE⟩ <;>
  · rw [hE]
    simp [decrCount, List.countP_append, List.countP_cons]

theorem handlerRunCount_safeExecute (s : scheduler) (d : Dispatch) :
    handlerRunCount (scheduler.safeExecute s d) = 1 := by
  rw [safeExecute_eq]
  rcases errEvents_shape s (s.deriveCtx d.Ctx)
      (recoveredError (Dispatch.Execute { d with Ctx := s.deriveCtx d.Ctx }))
    with hE | ⟨cb, e, hE⟩ <;>
  · rw [hE]
    simp [handlerRunCount, List.countP_append, List.countP_cons]

theorem safeExecute_head (s : scheduler) (d : Dispatch) :
    (scheduler.safeExecute s d).head? = some .workerIncr := rfl

theorem safeExecute_getLast (s : scheduler) (d : Dispatch) :
    (scheduler.safeExecute s d).getLast? = some .workerDecr := by
  rw [safeExecute_eq]
  exact List.getLast?_concat _

theorem onErrorEvents_safeExecute (s : scheduler) (d : Dispatch) :
    onErrorEvents (scheduler.safeExecute s d)
      = scheduler.errEvents s (s.deriveCtx d.Ctx)
          (recoveredError (Dispatch.Execute { d with Ctx := s.deriveCtx d.Ctx })) := by
  rw [safeExecute_eq]
  rcases errEvents_shape s (s.deriveCtx d.Ctx)
      (recoveredError (Dispatch.Execute { d with Ctx := s.deriveCtx d.Ctx }))
    with hE | ⟨cb, e, hE⟩ <;>
  · rw [hE]
    simp [onErrorEvents, List.filter_append]

theorem runCounter_runAll (s : scheduler) (ds : List Dispatch) (c : Int) :
    runCounter c (runAll s ds) = c := by
  induction ds generalizing c with
  | nil => rfl
  | cons d rest ih =>
    show runCounter c (scheduler.safeExecute s d ++ runAll s rest) = c
    rw [runCounter_append, runCounter_safeExecute]
    exact ih c

theorem handlerRunCount_runAll (s : scheduler) (ds : List Dispatch) :
    handlerRunCount (runAll s ds) = ds.length := by
  induction ds with
  | nil => rfl
  | cons d rest ih =>
    show handlerRunCount (scheduler.safeExecute s d ++ runAll s rest) = rest.length + 1
    unfold handlerRunCount
    rw [List.countP_append]
    rw [show (scheduler.safeExecute s d).countP _ = 1 from handlerRunCount_safeExecute s d]
    rw [show (runAll s rest).countP _ = rest.length from ih]
    omega

theorem applyOption_preserves (s : scheduler) (o : SchedulerOption)
    (h1 : s.onError.isSome = true) (h2 : s.deriver.isSome = true) :
    (applyOption s o).onError.isSome = true ∧ (applyOption s o).deriver.isSome = true := by
  cases o with
  | withAsyncErrorCallback cb => cases cb <;> simp [applyOption, h1, h2]
  | withContextDeriver f => cases f <;> simp [applyOption, h1, h2]
  | withSchedulingMetrics => exact ⟨h1, h2⟩

theorem foldl_applyOption_preserves (opts : List SchedulerOption) (s : scheduler)
    (h1 : s.onError.isSome = true) (h2 : s.deriver.isSome = true) :
    (opts.foldl applyOption s).onError.isSome = true
      ∧ (opts.foldl applyOption s).deriver.isSome = true := by
  induction opts generalizing s with
  | nil => exact ⟨h1, h2⟩
  | cons o rest ih =>
    obtain ⟨g1, g2⟩ := applyOption_preserves s o h1 h2
    exact ih (applyOption s o) g1 g2

end Sched

namespace Dispatcher

/-! Claim theorems about the HTTP dispatcher. -/

/-- C8: for every request whose event-type header is absent (empty), the
dispatcher responds 202 with an empty body, invokes no handler and no
error callback, and does so for every possible signature-validation
outcome — i.e. before signature verification and before any registry
lookup. -/
theorem missing_event_type_returns_202 (d : EventDispatcher)
    (validate : HookRequest → Option Payload) (r : HookRequest)
    (hev : r.eventType = "") :
    ServeHTTP d validate r
      = { status := 202, body := "", handlerCalls := [], onErrorCalls := [] } := by
  unfold ServeHTTP
  rw [if_pos hev]

theorem missing_event_type_returns_202_witness :
    ServeHTTP (NewEventDispatcher [prEH] none) validateFail { eventType := "", deliveryID := "w8" }
      = { status := 202, body := "", handlerCalls := [], onErrorCalls := [] } :=
  missing_event_type_returns_202 (NewEventDispatcher [prEH] none) validateFail
    { eventType := "", deliveryID := "w8" } rfl

/-- C2: for every request that reaches signature verification (event-type
header present) and whose payload fails validation, the dispatcher
responds 400 with the fixed diagnostic body, invokes zero handlers, and
never invokes the error callback. -/
theorem invalid_signature_returns_400 (d : EventDispatcher)
    (validate : HookRequest → Option Payload) (r : HookRequest)
    (hne : r.eventType ≠ "") (hval : validate r = none) :
    ServeHTTP d validate r
      = { status := 400, body := "invalid webhook or bad signature\n"
          handlerCalls := [], onErrorCalls := [] } := by
  unfold ServeHTTP
  rw [if_neg hne, hval]

theorem invalid_signature_returns_400_witness :
    ServeHTTP (NewEventDispatcher [prEH] none) validateFail
        { eventType := "pull_request", deliveryID := "w2" }
      = { status := 400, body := "invalid webhook or bad signature\n"
          handlerCalls := [], onErrorCalls := [] } :=
  invalid_signature_returns_400 (NewEventDispatcher [prEH] none) validateFail
    { eventType := "pull_request", deliveryID := "w2" } (by decide) rfl

/-- C1 counterexample: with a handler registered for the ping event type,
a valid ping delivery is routed to that handler — the `ok` case of the
switch precedes the ping case — so the claim "responds 200 with an empty
body and invokes no handler, even when a handler is registered for ping"
is false at this input (the handler is invoked once). -/
theorem ping_registered_handler_counterexample :
    (ServeHTTP (NewEventDispatcher [pingEH] none) validateOK
        { eventType := "ping", deliveryID := "c1" }).handlerCalls
      = [{ handlerIdx := 0, eventType := "ping", deliveryID := "c1", payload := [] }]
    ∧ ¬ ((ServeHTTP (NewEventDispatcher [pingEH] none) validateOK
          { eventType := "ping", deliveryID := "c1" }).status = 200
        ∧ (ServeHTTP (NewEventDispatcher [pingEH] none) validateOK
            { eventType := "ping", deliveryID := "c1" }).body = ""
        ∧ (ServeHTTP (NewEventDispatcher [pingEH] none) validateOK
            { eventType := "ping", deliveryID := "c1" }).handlerCalls = []) := by
  decide

/-- C1 (amended): a valid delivery with the ping event type yields 200
with an empty body and invokes no handler, provided no handler in the
construction list declares the ping event type. -/
theorem ping_unregistered_returns_200
    (handlers : List EventHandler) (onErr : Option ErrorHandler)
    (validate : HookRequest → Option Payload) (r : HookRequest) (payload : Payload)
    (hev : r.eventType = "ping") (hval : validate r = some payload)
    (hnone : ∀ hh ∈ handlers, "ping" ∉ hh.handles) :
    ServeHTTP (NewEventDispatcher handlers onErr) validate r
      = { status := 200, body := "", handlerCalls := [], onErrorCalls := [] } := by
  have hmap : (NewEventDispatcher handlers onErr).handlerMap r.eventType = none := by
    show buildHandlerMap handlers r.eventType = none
    rw [handlerMap_eq_firstHandlerFor, hev]
    exact firstHandlerFor_none handlers "ping" hnone
  have hne : r.eventType ≠ "" := by rw [hev]; decide
  unfold ServeHTTP
  rw [if_neg hne, hval, hmap, if_pos hev]

theorem ping_unregistered_returns_200_witness :
    ServeHTTP (NewEventDispatcher [prEH] none) validateOK
        { eventType := "ping", deliveryID := "w1" }
      = { status := 200, body := "", handlerCalls := [], onErrorCalls := [] } :=
  ping_unregistered_returns_200 [prEH] none validateOK
    { eventType := "ping", deliveryID := "w1" } [] rfl rfl (by decide)

/-- C4: when two handlers at positions `i < j` of the construction list
both declare event type `ev`, a valid delivery of type `ev` produces
exactly one handler invocation, going to the first handler in the list
that declares `ev` (whose index is at most `i` and in particular is not
`j`); the later handler receives zero invocations. -/
theorem first_registered_handler_wins
    (handlers : List EventHandler) (onErr : Option ErrorHandler) (i j : Nat)
    (hI hJ : EventHandler) (ev : String) (validate : HookRequest → Option Payload)
    (r : HookRequest) (payload : Payload)
    (hij : i < j) (hgi : handlers[i]? = some hI) (hgj : handlers[j]? = some hJ)
    (hmemI : ev ∈ hI.handles) (hmemJ : ev ∈ hJ.handles)
    (hev : r.eventType = ev) (hne : ev ≠ "") (hval : validate r = some payload) :
    ∃ k hK, firstHandlerFor handlers ev = some k ∧ k ≤ i ∧ k ≠ j
      ∧ handlers[k]? = some hK ∧ ev ∈ hK.handles
      ∧ (ServeHTTP (NewEventDispatcher handlers onErr) validate r).handlerCalls
          = [{ handlerIdx := k, eventType := ev
               deliveryID := r.deliveryID, payload := payload }] := by
  obtain ⟨k, hk, hki⟩ := firstHandlerFor_le handlers ev i hI hgi hmemI
  obtain ⟨hK, hgK, hmemK⟩ := firstHandlerFor_mem handlers ev k hk
  have hkj : k ≠ j := by omega
  refine ⟨k, hK, hk, hki, hkj, hgK, hmemK, ?_⟩
  have hmap : (NewEventDispatcher handlers onErr).handlerMap ev = some k := by
    show buildHandlerMap handlers ev = some k
    rw [handlerMap_eq_firstHandlerFor]
    exact hk
  have hhs : (NewEventDispatcher handlers onErr).handlers = handlers := rfl
  cases herr : (hK.handle ev r.deliveryID payload).err <;>
    simp [ServeHTTP, hhs, hval, hev, hmap, hgK, hne, herr]

theorem first_registered_handler_wins_witness :
    (ServeHTTP (NewEventDispatcher [prEH, prEH2] none) validateOK
        { eventType := "pull_request", deliveryID := "w4" }).handlerCalls
      = [{ handlerIdx := 0, eventType := "pull_request"
           deliveryID := "w4", payload := [] }] := by
  obtain ⟨k, hK, hk, hki, hkj, hgK, hmemK, hcalls⟩ :=
    first_registered_handler_wins [prEH, prEH2] none 0 1 prEH prEH2 "pull_request"
      validateOK { eventType := "pull_request", deliveryID := "w4" } []
      (by decide) rfl rfl (by decide) (by decide) rfl (by decide) rfl
  have hk0 : k = 0 := Nat.le_zero.mp hki
  subst hk0
  exact hcalls

end Dispatcher

namespace Sched

/-! Claim theorems about the schedulers. -/

/-- C3: `Schedule` on the bounded-queue scheduler is a non-blocking
enqueue: with free capacity it returns nil and appends the dispatch to the
queue; with a full queue it returns `ErrCapacityExceeded` and leaves the
state unchanged; and any error it returns is `ErrCapacityExceeded` — never
a handler-execution error. -/
theorem queue_schedule_nonblocking (s : queueScheduler) (d : Dispatch) :
    (s.queue.length < s.capacity →
      queueScheduler.Schedule s d = (none, { s with queue := s.queue ++ [d] }))
    ∧ (¬ s.queue.length < s.capacity →
      queueScheduler.Schedule s d = (some .capacityExceeded, s))
    ∧ ∀ e, (queueScheduler.Schedule s d).1 = some e → e = .capacityExceeded := by
  refine ⟨fun h => by simp [queueScheduler.Schedule, h],
    fun h => by simp [queueScheduler.Schedule, h], ?_⟩
  intro e he
  by_cases h : s.queue.length < s.capacity
  · simp [queueScheduler.Schedule, h] at he
  · simp [queueScheduler.Schedule, h] at he
    exact he.symm

theorem queue_schedule_nonblocking_witness :
    queueScheduler.Schedule emptyQS dOk = (none, { emptyQS with queue := [dOk] })
    ∧ queueScheduler.Schedule fullQS dOk = (some .capacityExceeded, fullQS) :=
  ⟨(queue_schedule_nonblocking emptyQS dOk).1 (by decide),
   (queue_schedule_nonblocking fullQS dOk).2.1 (by decide)⟩

/-- C6: `Schedule` on the synchronous (default) scheduler executes the
dispatch inline — it is exactly `d.Execute()` — so the handler runs with
the dispatch's own context (no derivation), a returned error is returned
unchanged to the caller, and a panic propagates unchanged (no recovery,
no conversion). -/
theorem default_scheduler_inline (d : Dispatch) :
    defaultScheduler.Schedule d = d.Execute
    ∧ (d.Handler.handle d.Ctx d.EventType d.DeliveryID d.Payload = .ok →
        defaultScheduler.Schedule d = .ok)
    ∧ (∀ e, d.Handler.handle d.Ctx d.EventType d.DeliveryID d.Payload = .err e →
        defaultScheduler.Schedule d = .err e)
    ∧ (∀ v, d.Handler.handle d.Ctx d.EventType d.DeliveryID d.Payload = .panicked v →
        defaultScheduler.Schedule d = .panicked v) :=
  ⟨rfl, fun h => h, fun _ h => h, fun _ h => h⟩

theorem default_scheduler_inline_witness :
    defaultScheduler.Schedule dErr1 = .err (.errorMsg "handler error") :=
  (default_scheduler_inline dErr1).2.2.1 (.errorMsg "handler error") rfl

/-- C5: at the failing input — two dispatches that differ only in their
delivery id, whose shared handler returns an error — the safe-execution
wrapper of the asynchronous schedulers produces identical error-callback
invocations, each carrying only the derived context and the error: the
`AsyncErrorCallback` signature has no dispatch parameter, so the callback
is not invoked with the original dispatch as the claim (and the repo's
scheduler tests) state. -/
theorem async_error_callback_lacks_dispatch :
    onErrorEvents (scheduler.safeExecute (AsyncScheduler []) dErr1)
      = onErrorEvents (scheduler.safeExecute (AsyncScheduler []) dErr2)
    ∧ onErrorEvents (scheduler.safeExecute (AsyncScheduler []) dErr1)
      = [.onErrorCall .defaultCallback (DefaultContextDeriver ctxReq) (.errorMsg "handler error")]
    ∧ dErr1.DeliveryID ≠ dErr2.DeliveryID := by
  refine ⟨by decide, by decide, by decide⟩

/-- C7: every `safeExecute` trace increments the active-worker counter
exactly once, at its start, and decrements it exactly once, at its end,
whatever the handler does; consequently, after a whole batch of dispatches
is executed — by the unbounded-async goroutines or by the queue
scheduler's workers draining its queue — the counter returns to its
initial value. -/
theorem worker_count_balanced (s : scheduler) (d : Dispatch) :
    incrCount (scheduler.safeExecute s d) = 1
    ∧ decrCount (scheduler.safeExecute s d) = 1
    ∧ (scheduler.safeExecute s d).head? = some .workerIncr
    ∧ (scheduler.safeExecute s d).getLast? = some .workerDecr
    ∧ (∀ (c : Int) (ds : List Dispatch), runCounter c (runAll s ds) = c)
    ∧ (∀ (c : Int) (q : queueScheduler), runCounter c q.drain = c) :=
  ⟨incrCount_safeExecute s d, decrCount_safeExecute s d, safeExecute_head s d,
   safeExecute_getLast s d, fun c ds => runCounter_runAll s ds c,
   fun c q => runCounter_runAll q.sched q.queue c⟩

/-- C9: construction of the bounded-queue scheduler panics exactly when
the requested queue capacity is negative or the worker count is less than
one; for capacity ≥ 0 and workers ≥ 1 it returns a scheduler. -/
theorem queue_construction_validation (queueSize workers : Int)
    (opts : List SchedulerOption) :
    (constructionPanics (QueueAsyncScheduler queueSize workers opts) = true
      ↔ (queueSize < 0 ∨ workers < 1))
    ∧ (0 ≤ queueSize → 1 ≤ workers →
        ∃ s, QueueAsyncScheduler queueSize workers opts = .ok s) := by
  constructor
  · constructor
    · intro h
      by_cases h1 : queueSize < 0
      · exact .inl h1
      · by_cases h2 : workers < 1
        · exact .inr h2
        · exact absurd h (by simp [QueueAsyncScheduler, constructionPanics, h1, h2])
    · intro h
      rcases h with h1 | h2
      · simp [QueueAsyncScheduler, constructionPanics, h1]
      · by_cases h1 : queueSize < 0 <;>
          simp [QueueAsyncScheduler, constructionPanics, h1, h2]
  · intro h1 h2
    refine ⟨⟨opts.foldl applyOption ⟨some .defaultCallback, some DefaultContextDeriver⟩,
      queueSize.toNat, [], workers.toNat⟩, ?_⟩
    simp [QueueAsyncScheduler, not_lt.mpr h1, not_lt.mpr h2]

theorem queue_construction_validation_witness :
    constructionPanics (QueueAsyncScheduler (-1) 1 []) = true
    ∧ constructionPanics (QueueAsyncScheduler 0 1 []) = false := by
  constructor
  · exact (queue_construction_validation (-1) 1 []).1.mpr (.inl (by decide))
  · obtain ⟨s, hs⟩ := (queue_construction_validation 0 1 []).2 (by decide) (by decide)
    rw [hs]
    rfl

/-- C10: every scheduler built by `AsyncScheduler` or a successful
`QueueAsyncScheduler` has a non-nil error callback and a non-nil context
deriver, whatever options are supplied: the constructors install
`DefaultAsyncErrorCallback` and `DefaultContextDeriver`, and the
`WithAsyncErrorCallback`/`WithContextDeriver` options leave the scheduler
unchanged when given nil. -/
theorem async_defaults_installed (opts : List SchedulerOption) :
    (AsyncScheduler opts).onError.isSome = true
    ∧ (AsyncScheduler opts).deriver.isSome = true
    ∧ (∀ (q w : Int) (s : queueScheduler), QueueAsyncScheduler q w opts = .ok s →
        s.sched.onError.isSome = true ∧ s.sched.deriver.isSome = true)
    ∧ (AsyncScheduler []).onError = some .defaultCallback
    ∧ (AsyncScheduler []).deriver = some DefaultContextDeriver
    ∧ (∀ s0 : scheduler, applyOption s0 (.withAsyncErrorCallback none) = s0)
    ∧ (∀ s0 : scheduler, applyOption s0 (.withContextDeriver none) = s0) := by
  have hbase := foldl_applyOption_preserves opts
    { deriver := some DefaultContextDeriver, onError := some AsyncErrorCallback.defaultCallback }
    rfl rfl
  refine ⟨hbase.1, hbase.2, ?_, rfl, rfl, fun s0 => rfl, fun s0 => rfl⟩
  intro q w s hs
  by_cases h1 : q < 0
  · simp [QueueAsyncScheduler, h1] at hs
  · by_cases h2 : w < 1
    · simp [QueueAsyncScheduler, h1, h2] at hs
    · simp only [QueueAsyncScheduler, if_neg h1, if_neg h2, Except.ok.injEq] at hs
      rw [← hs]
      exact hbase

theorem async_defaults_installed_witness :
    (AsyncScheduler [SchedulerOption.withSchedulingMetrics]).onError.isSome = true
    ∧ qsDefault.sched.onError.isSome = true
    ∧ qsDefault.sched.deriver.isSome = true :=
  ⟨(async_defaults_installed [SchedulerOption.withSchedulingMetrics]).1,
   ((async_defaults_installed []).2.2.1 0 1 qsDefault rfl).1,
   ((async_defaults_installed []).2.2.1 0 1 qsDefault rfl).2⟩

end Sched

end GoGithubApp
